import Mathlib

/-!
Verification development for the ymir VC trust engine (DID resolution,
OIDC4VP verification, OIDC4VCI issuance).

The Rust sources are embedded shallowly:
* `serde_json::Value` becomes the inductive `Value`; claim access mirrors
  `src/utils/mod.rs` (`get_claim`, `get_opt_claim`, `validate_data`).
* The `Errors` enum of `src/errors` is embedded by constructor kind and
  reason string (logging context, backtraces and wrapped sources are not
  semantically relevant and are dropped).  Errors produced by external
  libraries and propagated through `?` are collapsed into `ExternalError`.
* Async calls performing I/O or cryptography (HTTP fetch, JWT signature
  verification, RFC3339 parsing, base64/JWK decoding, current time) are
  passed in as explicit parameters, so every embedded function is total
  and executable.
-/

namespace Ymir

/-- Embeds `BadFormat` from `src/types/errors` (the variants used by the
verification core). -/
inductive BadFormat where
| sent
| received
| unknownFmt
deriving DecidableEq

/-- Embeds the `Errors` enum of `src/errors/errors.rs`, keeping the
constructor kind and the `reason` string; `ExternalError` stands for
non-`Errors` `anyhow` errors bubbled up from external libraries. -/
inductive Errors where
| PetitionError (url method : String) (httpCode : Option Nat) (reason : String)
| FormatError (fmt : BadFormat) (reason : String)
| UnauthorizedError (reason : String)
| ForbiddenError (reason : String)
| SecurityError (reason : String)
| FeatureNotImplError (feature value : String)
| ParseError (reason : String)
| ExternalError (reason : String)
deriving DecidableEq

/-- Embeds `Errors::format_new`. -/
def Errors.format_new (fmt : BadFormat) (reason : String) : Errors :=
.FormatError fmt reason

/-- Embeds `Errors::security_new`. -/
def Errors.security_new (reason : String) : Errors :=
.SecurityError reason

/-- Embeds `Errors::forbidden_new`. -/
def Errors.forbidden_new (reason : String) : Errors :=
.ForbiddenError reason

/-- Embeds `Errors::unauthorized_new`. -/
def Errors.unauthorized_new (reason : String) : Errors :=
.UnauthorizedError reason

/-- Embeds `Errors::not_impl_new`. -/
def Errors.not_impl_new (feature value : String) : Errors :=
.FeatureNotImplError feature value

/-- Embeds `serde_json::Value`. -/
inductive Value where
| null
| bool (b : Bool)
| num (n : Int)
| str (s : String)
| arr (elems : List Value)
| obj (fields : List (String × Value))

/-- Embeds `serde_json::Value::get(&str)`: key lookup on objects, `None`
otherwise. -/
def Value.get (v : Value) (key : String) : Option Value :=
match v with
| .obj fields => List.lookup key fields
| _ => none

/-- Embeds `Value::as_str`. -/
def Value.asStr : Value → Option String
| .str s => some s
| _ => none

/-- Embeds `Value::as_array`. -/
def Value.asArr : Value → Option (List Value)
| .arr elems => some elems
| _ => none

/-- Embeds `Value::as_object`. -/
def Value.asObj : Value → Option (List (String × Value))
| .obj fields => some fields
| _ => none

/-- Embeds immutable indexing `value[key]` on `serde_json::Value`, which
yields `Null` when the key is absent or the value is not an object. -/
def Value.indexD (v : Value) (key : String) : Value :=
(v.get key).getD .null

/-- Embeds the key-walking loop shared by `get_claim`/`get_opt_claim`
(`src/utils/mod.rs:79-107`): the position reached by following `path`,
or `none` when some key is absent. -/
def lookupPath : Value → List String → Option Value
| node, [] => some node
| node, key :: rest =>
  match node.get key with
  | some data => lookupPath data rest
  | none => none

/-- Embeds the same walk as performed in `get_claim`
(`src/utils/mod.rs:79-94`), where a missing key is a `Format` error
naming that key. -/
def walkClaims : Value → List String → Except Errors Value
| node, [] => .ok node
| node, key :: rest =>
  match node.get key with
  | some data => walkClaims data rest
  | none => .error (Errors.format_new .received ("Missing field \x27" ++ key ++ "\x27"))

/-- Embeds `validate_data` (`src/utils/mod.rs:109-119`). -/
def validate_data (node : Value) (field : String) : Except Errors String :=
match node.asStr with
| some data => .ok data
| none => .error (Errors.format_new .received ("Field \x27" ++ field ++ "\x27 not a string"))

/-- Embeds `get_claim` (`src/utils/mod.rs:79-94`). -/
def get_claim (claims : Value) (path : List String) : Except Errors String :=
let field := (path.getLast?).getD "unknown"
match walkClaims claims path with
| .error e => .error e
| .ok node => validate_data node field

/-- Embeds `get_opt_claim` (`src/utils/mod.rs:96-107`). -/
def get_opt_claim (claims : Value) (path : List String) : Except Errors (Option String) :=
let field := (path.getLast?).getD "unknown"
match lookupPath claims path with
| none => .ok none
| some node =>
  match validate_data node field with
  | .error e => .error e
  | .ok data => .ok (some data)

example : get_claim (.obj [("nonce", .str "abc")]) ["nonce"] = .ok "abc" := rfl
example : get_claim (.obj []) ["nonce"] =
    .error (.FormatError .received "Missing field \x27nonce\x27") := rfl
example : get_opt_claim (.obj [("jti", .num 3)]) ["jti"] =
    .error (.FormatError .received "Field \x27jti\x27 not a string") := rfl
example : get_opt_claim (.obj []) ["jti"] = .ok none := rfl

namespace recv_verification

/-- Embeds the `recv_verification::Model` session record
(`src/data/entities/recv_verification.rs`); `chrono::NaiveDateTime`
timestamps are abstracted to integers. -/
structure Model where
  id : String
  state : String
  nonce : String
  vc_type : String
  audience : String
  holder : Option String
  vpt : Option String
  success : Option Bool
  status : String
  created_at : Int
  ended_at : Option Int
deriving DecidableEq

end recv_verification

/-- Embeds the free function `check_iss`
(`src/services/verifier/basic/service.rs:443-453`). -/
def check_iss (iss : Option String) (kid : String) : Except Errors Unit :=
match iss with
| some issuer =>
  if issuer ≠ kid then .error (Errors.security_new "VPT token issuer & kid does not match")
  else .ok ()
| none => .ok ()

/-- Embeds `BasicVerifierService::validate_nonce`
(`src/services/verifier/basic/service.rs:238-250`). -/
def validate_nonce (model : recv_verification.Model) (claims : Value) : Except Errors Unit := do
let nonce ← get_claim claims ["nonce"]
if model.nonce ≠ nonce then throw (Errors.security_new "Invalid nonce, it does not match")
else pure ()

/-- Embeds `BasicVerifierService::validate_vp_subject`
(`src/services/verifier/basic/service.rs:252-276`); the `&mut Model`
write `model.holder = Some(kid)` becomes returning the updated record. -/
def validate_vp_subject (model : recv_verification.Model) (claims : Value) (kid : String) :
    Except Errors recv_verification.Model := do
let sub ← get_opt_claim claims ["sub"]
let iss ← get_opt_claim claims ["iss"]
match sub with
| some s =>
  if s ≠ kid then throw (Errors.security_new "VPT token subject & kid does not match")
  else pure ()
| none => pure ()
check_iss iss kid
pure { model with holder := some kid }

/-- Embeds `BasicVerifierService::validate_vp_id`
(`src/services/verifier/basic/service.rs:305-318`). -/
def validate_vp_id (model : recv_verification.Model) (claims : Value) : Except Errors Unit := do
let vp_id ← get_claim claims ["vp", "id"]
if model.id ≠ vp_id then throw (Errors.security_new "Invalid id, it does not match")
else pure ()

/-- Embeds `BasicVerifierService::validate_holder`
(`src/services/verifier/basic/service.rs:320-333`).  The source calls
`model.holder.clone().unwrap()` after extracting the `vp.holder` claim;
the `unwrap` panic on `holder = None` is modelled by the outer `none`. -/
def validate_holder (model : recv_verification.Model) (claims : Value) :
    Option (Except Errors Unit) :=
match get_claim claims ["vp", "holder"] with
| .error e => some (.error e)
| .ok vp_holder =>
  match model.holder with
  | none => none
  | some h =>
    some (if h ≠ vp_holder then .error (Errors.security_new "Invalid holder, it does not match")
          else .ok ())

/-- Embeds `serde_json::from_value::<Vec<String>>`. -/
def asStringList (v : Value) : Option (List String) :=
match v with
| .arr elems => elems.mapM Value.asStr
| _ => none

/-- Embeds `BasicVerifierService::retrieve_vcs`
(`src/services/verifier/basic/service.rs:422-440`); the serde error
detail appended to the reason string is elided. -/
def retrieve_vcs (claims : Value) : Except Errors (List String) :=
match asStringList ((claims.indexD "vp").indexD "verifiableCredential") with
| some vcs => .ok vcs
| none =>
  .error (Errors.format_new .received
    "VPT does not contain the \x27verifiableCredential\x27 field")

/-- Embeds `BasicVerifierService::verify_vp`
(`src/services/verifier/basic/service.rs:130-159`).  The call
`self.validate_token(vp_token, Some(&model.state))` performs DID
resolution and signature verification; its outcome (claim set and base
DID `kid`, or a typed error) is the `tokenRes` parameter.  The result is
the mutated session together with the call result; a top-level `none`
models the only possible panic (the `unwrap` in `validate_holder`). -/
def verify_vp (model : recv_verification.Model) (vp_token : String)
    (tokenRes : Except Errors (Value × String)) :
    Option (recv_verification.Model × Except Errors (List String × String)) :=
let model := { model with vpt := some vp_token }
match tokenRes with
| .error e => some (model, .error e)
| .ok (claims, kid) =>
  match validate_nonce model claims with
  | .error e => some (model, .error e)
  | .ok () =>
  match validate_vp_subject model claims kid with
  | .error e => some (model, .error e)
  | .ok model2 =>
  match validate_vp_id model2 claims with
  | .error e => some (model2, .error e)
  | .ok () =>
  match validate_holder model2 claims with
  | none => none
  | some (.error e) => some (model2, .error e)
  | some (.ok ()) =>
    match retrieve_vcs claims with
    | .error e => some (model2, .error e)
    | .ok vcs => some (model2, .ok (vcs, kid))

/-- Embeds `BasicVerifierService::validate_issuer`
(`src/services/verifier/basic/service.rs:335-351`). -/
def validate_issuer (claims : Value) (kid : String) : Except Errors Unit := do
let iss ← get_opt_claim claims ["iss"]
let vc_iss_id ← get_claim claims ["vc", "issuer", "id"]
check_iss iss kid
if vc_iss_id ≠ kid then throw (Errors.security_new "VCT token issuer & kid does not match")
else pure ()

/-- Embeds `BasicVerifierService::validate_vc_id`
(`src/services/verifier/basic/service.rs:353-370`). -/
def validate_vc_id (claims : Value) : Except Errors Unit := do
let vc_id ← get_claim claims ["vc", "id"]
let jti ← get_opt_claim claims ["jti"]
match jti with
| some j =>
  if j ≠ vc_id then throw (Errors.security_new "Invalid id, it does not match")
  else pure ()
| none => pure ()

/-- Embeds `BasicVerifierService::validate_vc_sub`
(`src/services/verifier/basic/service.rs:278-303`). -/
def validate_vc_sub (claims : Value) (holder : String) : Except Errors Unit := do
let sub ← get_opt_claim claims ["sub"]
let cred_sub_id ← get_claim claims ["vc", "CredentialSubject", "id"]
match sub with
| some s =>
  if s ≠ holder then
    throw (Errors.security_new "VCT token sub, credential subject & VP Holder do not match")
  else pure ()
| none => pure ()
if holder ≠ cred_sub_id then
  throw (Errors.security_new "VCT token sub, credential subject & VP Holder do not match")
else pure ()

/-- Embeds `BasicVerifierService::validate_valid_from`
(`src/services/verifier/basic/service.rs:372-395`).
`DateTime::parse_from_rfc3339` and `Utc::now()` are injected:
`parseRfc3339` returns the parsed instant (`none` on parse failure,
whose chrono error detail in the reason string is elided), `now` is the
current instant. -/
def validate_valid_from (parseRfc3339 : String → Option Int) (now : Int) (claims : Value) :
    Except Errors Unit := do
let valid_from ← get_opt_claim claims ["vc", "validFrom"]
match valid_from with
| some s =>
  match parseRfc3339 s with
  | none => throw (Errors.security_new "wrong format for field valid_from")
  | some date =>
    if date > now then throw (Errors.security_new "VC is not valid yet")
    else pure ()
| none => pure ()

/-- Embeds `BasicVerifierService::validate_valid_until`
(`src/services/verifier/basic/service.rs:397-420`). -/
def validate_valid_until (parseRfc3339 : String → Option Int) (now : Int) (claims : Value) :
    Except Errors Unit := do
let valid_until ← get_opt_claim claims ["vc", "validUntil"]
match valid_until with
| some s =>
  match parseRfc3339 s with
  | none => throw (Errors.security_new "wrong format for field valid_until")
  | some date =>
    if now > date then throw (Errors.security_new "VC has expired")
    else pure ()
| none => pure ()

/-- Embeds `BasicVerifierService::verify_vc`
(`src/services/verifier/basic/service.rs:161-182`), with the token
validation outcome and the time capabilities injected as in
`verify_vp`/`validate_valid_from`. -/
def verify_vc (parseRfc3339 : String → Option Int) (now : Int) (holder : String)
    (tokenRes : Except Errors (Value × String)) : Except Errors Unit := do
let (claims, kid) ← tokenRes
validate_issuer claims kid
validate_vc_id claims
validate_vc_sub claims holder
validate_valid_from parseRfc3339 now claims
validate_valid_until parseRfc3339 now claims

/-- Embeds `DidType` (`src/types/dids/did_type.rs`). -/
inductive DidType where
| Jwk
| Web
| Other
deriving DecidableEq

/-! Character-list implementations of the `str` operations used by the
DID resolver (`split_once`, `split`, `starts_with`, `replace`).  The
Lean core `String` functions work on byte positions and do not reduce
inside the kernel, so the embedding recurses structurally over
`String.data` instead; the semantics match the Rust operations. -/

/-- Embeds `str::split_once(c)`: the text before and after the first
occurrence of `c`, or `none` when `c` does not occur. -/
def splitOnceChar (c : Char) (s : String) : Option (String × String) :=
go s.data []
where go : List Char → List Char → Option (String × String)
| [], _ => none
| x :: xs, acc => if x = c then some (String.mk acc.reverse, String.mk xs) else go xs (x :: acc)

/-- Embeds `str::split(c)` (always at least one piece, keeps empty
pieces). -/
def splitChar (c : Char) (s : String) : List String :=
go s.data []
where go : List Char → List Char → List String
| [], acc => [String.mk acc.reverse]
| x :: xs, acc => if x = c then String.mk acc.reverse :: go xs [] else go xs (x :: acc)

/-- Embeds `str::starts_with(pat)`. -/
def startsWithStr (s pre : String) : Bool :=
pre.data.isPrefixOf s.data

/-- Embeds `str::replace(pat, repl)` (global, non-overlapping,
left-to-right); the fuel argument is an upper bound on the number of
steps, so the recursion stays structural. -/
def replaceStr (s pat repl : String) : String :=
String.mk (go (s.data.length + 1) s.data)
where go : Nat → List Char → List Char
| 0, l => l
| _ + 1, [] => []
| fuel + 1, x :: xs =>
  if pat.data.isPrefixOf (x :: xs) then
    repl.data ++ go fuel ((x :: xs).drop pat.data.length)
  else x :: go fuel xs

/-- Embeds `DidResolver::split_did_id` (`src/capabilities/did.rs:38-43`),
i.e. `str::split_once('#')`. -/
def split_did_id (did : String) : String × Option String :=
match splitOnceChar '#' did with
| some (did_kid, id) => (did_kid, some id)
| none => (did, none)

/-- Embeds `DidResolver::parse_did` (`src/capabilities/did.rs:130-138`). -/
def parse_did (did : String) : DidType :=
if startsWithStr did "did:web:" then .Web
else if startsWithStr did "did:jwk:" then .Jwk
else .Other

/-- Embeds `DidResolver::parse_domain` (`src/capabilities/did.rs:139-150`). -/
def parse_domain (domain : String) : String :=
match splitChar ':' domain with
| [d] => "https://" ++ d ++ "/.well-known/did.json"
| d :: path => "https://" ++ d ++ "/" ++ String.intercalate "/" path ++ "/did.json"
| [] => ""

/-- Embeds the outcome of `client.get(url).await` followed by
`res.status()` and `res.json()` in `DidResolver::get_key`: the HTTP
status and the JSON decoding of the body (`none` when the body is not
valid JSON). -/
structure FetchedDoc where
  status : Nat
  body : Option Value

/-- Embeds `DidResolver::get_key` (`src/capabilities/did.rs:45-128`).
External capabilities are injected: `jwkDecode` is the whole
`did:jwk` pipeline (base64url-no-pad decode, `serde_json::from_slice`
into a `Jwk`, `DecodingKey::from_jwk`), `keyFromJwkValue` is
`serde_json::from_value::<Jwk>` plus `DecodingKey::from_jwk` on a
`publicKeyJwk` object, and `fetchRes` is the result of the
`client.get` call (a transport failure surfaces the client's own typed
error, a completed exchange a `FetchedDoc`). -/
def get_key {κ : Type} (jwkDecode : String → Except Errors κ)
    (keyFromJwkValue : Value → Except Errors κ)
    (did : String) (fetchRes : Except Errors FetchedDoc) : Except Errors κ :=
match parse_did did with
| .Jwk =>
  let did_base := (split_did_id did).1
  jwkDecode (replaceStr did_base "did:jwk:" "")
| .Web =>
  let (did_base, kid?) := split_did_id did
  match kid? with
  | none => .error (Errors.format_new .received "did:web requires a key id fragment (#...)")
  | some kid =>
    let domain := replaceStr did_base "did:web:" ""
    let _url := parse_domain domain
    match fetchRes with
    | .error e => .error e
    | .ok res =>
      if res.status = 200 then
        match res.body with
        | none => .error (Errors.ExternalError "response body is not valid JSON")
        | some doc =>
          match (doc.indexD "verificationMethod").asArr with
          | none => .error (Errors.format_new .received "Missing verification method")
          | some methods =>
            let full_kid := did_base ++ "#" ++ kid
            match methods.find? (fun m => (m.indexD "id").asStr == some full_kid) with
            | none => .error (Errors.format_new .received ("Key not found: " ++ full_kid))
            | some method =>
              match (method.indexD "publicKeyJwk").asObj with
              | none => .error (Errors.format_new .received "Missing publicKeyJwk")
              | some jwk_value => keyFromJwkValue (.obj jwk_value)
      else .error (Errors.format_new .received "Did Document not retrieved")
| .Other => .error (Errors.not_impl_new "did method" did)

namespace issuing

/-- Embeds the `issuing::Model` session record
(`src/data/entities/issuing.rs`). -/
structure Model where
  id : String
  name : String
  pre_auth_code : String
  tx_code : String
  step : Bool
  vc_type : String
  uri : Option String
  token : String
  aud : String
  holder_did : Option String
  issuer_did : Option String
  credential_id : String
  credential : Option String
  credential_data : Option String
deriving DecidableEq

end issuing

/-- Embeds `TokenRequest` from `src/types/issuing` (the `token_req`
module; the struct body is reconstructed from its use sites in
`BasicIssuerService::validate_token_req`, where `payload.tx_code` is an
`Option<String>` and `payload.pre_authorized_code` a `String`). -/
structure TokenRequest where
  tx_code : Option String
  pre_authorized_code : String
deriving DecidableEq

/-- Embeds `BasicIssuerService::validate_token_req`
(`src/services/issuer/basic/service.rs:152-174`). -/
def validate_token_req (model : issuing.Model) (payload : TokenRequest) :
    Except Errors Unit := do
match payload.tx_code with
| some tx_code =>
  if model.tx_code ≠ tx_code then throw (Errors.forbidden_new "tx_code does not match")
  else pure ()
| none => pure ()
if model.pre_auth_code ≠ payload.pre_authorized_code then
  throw (Errors.forbidden_new "pre_auth_code does not match")
else pure ()

/-- Embeds the `DidPossession` claim struct from `src/types/issuing`
(the `did_possession` module; fields reconstructed from its use sites in
`validate_cred_req`/`validate_did_possession`: `iss`/`sub` strings and
`iat`/`exp` seconds). -/
structure DidPossession where
  iss : String
  sub : String
  iat : Nat
  exp : Nat
deriving DecidableEq

/-- Embeds the `Proof` part of `CredentialRequest` from
`src/types/issuing` (the `cred_req` module; fields reconstructed from
use sites: `proof_type` and the proof JWT). -/
structure CredProof where
  proof_type : String
  jwt : String
deriving DecidableEq

/-- Embeds `CredentialRequest` from `src/types/issuing` (the `cred_req`
module; fields reconstructed from use sites in `validate_cred_req`). -/
structure CredentialRequest where
  format : String
  proof : CredProof
deriving DecidableEq

/-- Embeds `is_active` (`src/utils/mod.rs:135-144`); `Utc::now()` is
the injected `now`. -/
def is_active (now iat : Nat) : Except Errors Unit :=
if now ≥ iat then .ok ()
else .error (Errors.forbidden_new "Token is not yet valid")

/-- Embeds `has_expired` (`src/utils/mod.rs:146-155`). -/
def has_expired (now exp : Nat) : Except Errors Unit :=
if now ≤ exp then .ok ()
else .error (Errors.forbidden_new "Token has expired")

/-- Embeds `BasicIssuerService::validate_did_possession`
(`src/services/issuer/basic/service.rs:253-265`): the guard is the
source's `token.claims.iss != token.claims.sub && token.claims.sub != kid`. -/
def validate_did_possession (claims : DidPossession) (kid : String) : Except Errors Unit :=
if claims.iss ≠ claims.sub ∧ claims.sub ≠ kid then
  .error (Errors.forbidden_new "Invalid proof of did possession")
else .ok ()

/-- Embeds `BasicIssuerService::validate_cred_req`
(`src/services/issuer/basic/service.rs:206-251`).  `did` is
`self.config.get_did()`, `tokenRes` the outcome of
`validate_token::<DidPossession>(&cred_req.proof.jwt, Some(&model.aud))`
(DID resolution plus signature check), `now` the current time used by
`is_active`/`has_expired`; the mutated session is returned. -/
def validate_cred_req (model : issuing.Model) (cred_req : CredentialRequest) (token : String)
    (did : String) (tokenRes : Except Errors (DidPossession × String)) (now : Nat) :
    Except Errors issuing.Model := do
if model.token ≠ token then throw (Errors.forbidden_new "tx_code does not match")
else pure ()
if cred_req.format ≠ "jwt_vc_json" then
  throw (Errors.format_new .received ("Cannot issue a credentia with format: " ++ cred_req.format))
else pure ()
if cred_req.proof.proof_type ≠ "jwt" then
  throw (Errors.format_new .received
    ("Cannot validate proof with type: " ++ cred_req.proof.proof_type))
else pure ()
let (tok, kid) ← tokenRes
validate_did_possession tok kid
let model := { model with holder_did := some kid, issuer_did := some did }
is_active now tok.iat
has_expired now tok.exp
pure model

/-- Embeds `LegalRegistrationNumberTypes`
(`src/types/vcs/vc_specs/legal_authority`). -/
inductive LegalRegistrationNumberTypes where
| TaxId
| Euid
| Eori
| VatId
| LeiCode
deriving DecidableEq

/-- Embeds `VcType` (`src/types/vcs/vc_type.rs:27-34`). -/
inductive VcType where
| LegalRegistrationNumber (sub : LegalRegistrationNumberTypes)
| DataspaceParticipant
| LegalPerson
| TermsAndConditions
| Unknown
deriving DecidableEq

/-- Embeds `VcType::from_str` (`src/types/vcs/vc_type.rs:36-62`). -/
def VcType.from_str (s : String) : Except Errors VcType :=
match s with
| "LegalRegistrationNumber-tax_id" => .ok (.LegalRegistrationNumber .TaxId)
| "LegalRegistrationNumber-euid" => .ok (.LegalRegistrationNumber .Euid)
| "LegalRegistrationNumber-eori" => .ok (.LegalRegistrationNumber .Eori)
| "LegalRegistrationNumber-vat_id" => .ok (.LegalRegistrationNumber .VatId)
| "LegalRegistrationNumber-lei_code" => .ok (.LegalRegistrationNumber .LeiCode)
| "DataspaceParticipant" => .ok .DataspaceParticipant
| "LegalPerson" => .ok .LegalPerson
| "TermsAndConditions" => .ok .TermsAndConditions
| fmt => .error (.ParseError ("Unknown credential format: " ++ fmt))

/-- Embeds the `Display` implementation `VcType::fmt`
(`src/types/vcs/vc_type.rs:64-84`). -/
def VcType.fmt : VcType → String
| .LegalRegistrationNumber .TaxId => "LegalRegistrationNumber-tax_id"
| .LegalRegistrationNumber .Euid => "LegalRegistrationNumber-euid"
| .LegalRegistrationNumber .Eori => "LegalRegistrationNumber-eori"
| .LegalRegistrationNumber .VatId => "LegalRegistrationNumber-vat_id"
| .LegalRegistrationNumber .LeiCode => "LegalRegistrationNumber-lei_code"
| .DataspaceParticipant => "DataspaceParticipant"
| .LegalPerson => "LegalPerson"
| .TermsAndConditions => "TermsAndConditions"
| .Unknown => "Unknown"

/-! Unfolding lemmas for the `Except` monad operations used by the
embedded `?`-style control flow. -/

theorem ok_bind {α β : Type} (a : α) (f : α → Except Errors β) :
    (Except.ok a : Except Errors α) >>= f = f a := rfl

theorem error_bind {α β : Type} (e : Errors) (f : α → Except Errors β) :
    (Except.error e : Except Errors α) >>= f = .error e := rfl

theorem pure_eq {α : Type} (a : α) : (pure a : Except Errors α) = .ok a := rfl

theorem throw_eq {α : Type} (e : Errors) : (throw e : Except Errors α) = .error e := rfl

/-! Concrete records used by the closed witness/counterexample
theorems. -/

/-- A concrete verification session. -/
def sampleVerModel : recv_verification.Model :=
{ id := "vid-1", state := "st-1", nonce := "nonce-A", vc_type := "[\x22LegalPerson\x22]",
  audience := "https://verifier.example/verify/st-1", holder := none, vpt := none,
  success := none, status := "Pending", created_at := 0, ended_at := none }

/-- A concrete issuance session (its `step` flag is set, so the spec
considers a `tx_code` required). -/
def sampleIssModel : issuing.Model :=
{ id := "iss-1", name := "acme", pre_auth_code := "PAC", tx_code := "TXC", step := true,
  vc_type := "LegalPerson", uri := none, token := "TOK",
  aud := "https://issuer.example/api/issuer", holder_did := none, issuer_did := none,
  credential_id := "cred-1", credential := none, credential_data := none }

/-- A concrete RFC3339 parser used by witness theorems: it knows two
timestamps, one mapping to instant 100 and one to instant 0. -/
def sampleParseRfc3339 : String → Option Int := fun s =>
if s = "2099-01-01T00:00:00Z" then some 100
else if s = "2001-01-01T00:00:00Z" then some 0
else none

/-- The session state reached once `verify_vp` has stored the incoming
token: `sampleVerModel` with `vpt` set. -/
def sampleVerModelV : recv_verification.Model :=
{ sampleVerModel with vpt := some "vpt-jwt" }

/-- Helper: any successful run of `validate_vp_subject` returns the
input session with exactly the `holder` field set to the resolved
`kid`. -/
theorem vp_subject_ok {m : recv_verification.Model} {c : Value} {k : String}
    {m2 : recv_verification.Model} (h : validate_vp_subject m c k = .ok m2) :
    m2 = { m with holder := some k } := by
  unfold validate_vp_subject check_iss at h
  simp only [bind, Except.bind, pure, Except.pure, throw, throwThe, MonadExceptOf.throw] at h
  repeat' (split at h)
  all_goals simp_all

/-- Claim C1: the spec requires `validate_cred_req` to return Forbidden
(\x22invalid proof of did possession\x22) whenever the proof JWT has
`sub ≠ kid` or `iss ≠ kid`.  The code's guard is
`iss != sub && sub != kid`, so a proof whose `iss` equals its `sub`
passes even though both differ from the resolved `kid`: at that failing
input `validate_did_possession` returns `Ok` and the whole
`validate_cred_req` succeeds, setting `holder_did` to the kid. -/
theorem C1_did_possession_accepts_foreign_sub :
    validate_did_possession
      { iss := "did:example:attacker", sub := "did:example:attacker", iat := 0, exp := 0 }
      "did:example:holder" = .ok () ∧
    validate_cred_req sampleIssModel
      { format := "jwt_vc_json", proof := { proof_type := "jwt", jwt := "jwt-blob" } }
      "TOK" "did:web:issuer.example#owner"
      (.ok ({ iss := "did:example:attacker", sub := "did:example:attacker", iat := 0, exp := 10 },
        "did:example:holder")) 5 =
      .ok { sampleIssModel with
            holder_did := some "did:example:holder"
            issuer_did := some "did:web:issuer.example#owner" } := ⟨rfl, rfl⟩

/-- Claim C2 (counterexample): a V2-shaped claim set carrying the
credential subject at top-level `CredentialSubject.id`, equal to the
holder, is rejected by `validate_vc_sub` with a Format error
`Missing field \x27vc\x27`; the verifier takes no data-model-version
argument, so no configured version makes it read the top-level path as
the claim states. -/
theorem C2_v2_claims_rejected_cex :
    validate_vc_sub (.obj [("CredentialSubject", .obj [("id", .str "did:holder")])])
      "did:holder" =
      .error (Errors.format_new .received "Missing field \x27vc\x27") := rfl

/-- Claim C2 (amended): the Verifier reads the credential-subject id at
the fixed path `vc.CredentialSubject.id` and the issuer id at the fixed
path `vc.issuer.id`, irrespective of any configured W3C data model
version, requiring the former to equal the session holder (together
with the optional `sub` claim) and the latter to equal the VC's own
resolved `kid` (together with the optional `iss` claim). -/
theorem C2_fixed_v1_claim_paths : ∀ (claims : Value) (holder kid : String),
    (validate_vc_sub claims holder = .ok () ↔
      ((get_opt_claim claims ["sub"] = .ok none ∨
          get_opt_claim claims ["sub"] = .ok (some holder)) ∧
        get_claim claims ["vc", "CredentialSubject", "id"] = .ok holder)) ∧
    (validate_issuer claims kid = .ok () ↔
      ((get_opt_claim claims ["iss"] = .ok none ∨
          get_opt_claim claims ["iss"] = .ok (some kid)) ∧
        get_claim claims ["vc", "issuer", "id"] = .ok kid)) := by
  intro claims holder kid
  constructor
  · cases hsub : get_opt_claim claims ["sub"] with
    | error e => simp [validate_vc_sub, hsub, error_bind]
    | ok osub =>
      cases hcs : get_claim claims ["vc", "CredentialSubject", "id"] with
      | error e => simp [validate_vc_sub, hsub, hcs, ok_bind, error_bind]
      | ok cs =>
        cases osub with
        | none =>
          by_cases hh : holder = cs
          · simp [validate_vc_sub, hsub, hcs, ok_bind, error_bind, pure_eq, throw_eq, hh]
          · simp [validate_vc_sub, hsub, hcs, ok_bind, error_bind, pure_eq, throw_eq, hh,
              Ne.symm hh]
        | some s =>
          by_cases hs : s = holder
          · subst hs
            by_cases hh : s = cs
            · simp [validate_vc_sub, hsub, hcs, ok_bind, error_bind, pure_eq, throw_eq, hh]
            · simp [validate_vc_sub, hsub, hcs, ok_bind, error_bind, pure_eq, throw_eq, hh,
                Ne.symm hh]
          · simp [validate_vc_sub, hsub, hcs, ok_bind, error_bind, pure_eq, throw_eq, hs,
              Ne.symm hs]
  · cases hiss : get_opt_claim claims ["iss"] with
    | error e => simp [validate_issuer, hiss, error_bind]
    | ok oiss =>
      cases hvi : get_claim claims ["vc", "issuer", "id"] with
      | error e => simp [validate_issuer, hiss, hvi, ok_bind, error_bind]
      | ok vi =>
        cases oiss with
        | none =>
          by_cases hh : vi = kid
          · simp [validate_issuer, check_iss, hiss, hvi, ok_bind, error_bind, pure_eq,
              throw_eq, hh]
          · simp [validate_issuer, check_iss, hiss, hvi, ok_bind, error_bind, pure_eq,
              throw_eq, hh, Ne.symm hh]
        | some i =>
          by_cases hi : i = kid
          · subst hi
            by_cases hh : vi = i
            · simp [validate_issuer, check_iss, hiss, hvi, ok_bind, error_bind, pure_eq,
                throw_eq, hh]
            · simp [validate_issuer, check_iss, hiss, hvi, ok_bind, error_bind, pure_eq,
                throw_eq, hh, Ne.symm hh]
          · simp [validate_issuer, check_iss, hiss, hvi, ok_bind, error_bind, pure_eq,
              throw_eq, hi, Ne.symm hi]

/-- Claim C3 (counterexample): for a session whose two-phase `step` flag
is set, a token request that carries no `tx_code` at all but the right
pre-authorized code is accepted, although the claim requires Forbidden
unless the request carries a `tx_code` equal to the session's. -/
theorem C3_missing_tx_code_accepted_cex :
    sampleIssModel.step = true ∧
    validate_token_req sampleIssModel { tx_code := none, pre_authorized_code := "PAC" } =
      .ok () := ⟨rfl, rfl⟩

/-- Claim C3 (amended): `validate_token_req` never consults the `step`
flag; it returns Forbidden when the request carries a `tx_code`
different from `session.tx_code`, Forbidden when the request's
`pre_authorized_code` differs from `session.pre_auth_code`, and Ok
exactly when the supplied `tx_code` (if any) and the pre-authorized
code both match. -/
theorem C3_token_req_characterization : ∀ (model : issuing.Model) (payload : TokenRequest),
    (validate_token_req model payload = .ok () ↔
      ((payload.tx_code = none ∨ payload.tx_code = some model.tx_code) ∧
        payload.pre_authorized_code = model.pre_auth_code)) ∧
    (validate_token_req model payload = .ok () ∨
      validate_token_req model payload = .error (Errors.forbidden_new "tx_code does not match") ∨
      validate_token_req model payload =
        .error (Errors.forbidden_new "pre_auth_code does not match")) := by
  intro model payload
  unfold validate_token_req
  cases htx : payload.tx_code with
  | none =>
    by_cases hp : model.pre_auth_code = payload.pre_authorized_code
    all_goals simp [ok_bind, error_bind, pure_eq, throw_eq, hp, Errors.forbidden_new]
    all_goals tauto
  | some tx =>
    by_cases ht : model.tx_code = tx
    all_goals by_cases hp : model.pre_auth_code = payload.pre_authorized_code
    all_goals simp [ok_bind, error_bind, pure_eq, throw_eq, ht, hp, Errors.forbidden_new]
    all_goals tauto

/-- Claim C4: when the token validation of the vp_token succeeds with
claim set `claims` and kid, and the `nonce` claim is a string different
from `session.nonce`, `verify_vp` stops with the Security error
\x22Invalid nonce, it does not match\x22, the session having only its
`vpt` field set; the result is the same for every claim set with that
nonce, so no VC is examined. -/
theorem C4_nonce_mismatch_security_error : ∀ (model : recv_verification.Model)
    (vp_token : String) (claims : Value) (kid nonce : String),
    get_claim claims ["nonce"] = .ok nonce → nonce ≠ model.nonce →
    verify_vp model vp_token (.ok (claims, kid)) =
      some ({ model with vpt := some vp_token },
        .error (Errors.security_new "Invalid nonce, it does not match")) := by
  intro model t claims kid nonce h1 h2
  have hn : validate_nonce { model with vpt := some t } claims =
      .error (Errors.security_new "Invalid nonce, it does not match") := by
    simp [validate_nonce, h1, ok_bind, throw_eq, Ne.symm h2]
  simp [verify_vp, hn]

/-- Claim C4 witness: a concrete session expecting nonce `nonce-A`
rejects a validated token carrying nonce `nonce-B`. -/
theorem C4_nonce_mismatch_security_error_witness :
    verify_vp sampleVerModel "vpt-jwt" (.ok (.obj [("nonce", .str "nonce-B")], "did:holder")) =
      some ({ sampleVerModel with vpt := some "vpt-jwt" },
        .error (Errors.security_new "Invalid nonce, it does not match")) :=
  C4_nonce_mismatch_security_error sampleVerModel "vpt-jwt"
    (.obj [("nonce", .str "nonce-B")]) "did:holder" "nonce-B" rfl (by decide)

/-- Claim C5 (counterexample): for a did:web DID with a key-id fragment
whose document fetch completes with HTTP 404, `get_key` fails with a
Format error (\x22Did Document not retrieved\x22), not with a
Petition-kind error as the claim states. -/
theorem C5_non200_format_error_cex :
    get_key (fun _ => (.error (.ExternalError "unused") : Except Errors Unit))
      (fun _ => .error (.ExternalError "unused"))
      "did:web:example.com#key-1" (.ok { status := 404, body := some .null }) =
      .error (Errors.format_new .received "Did Document not retrieved") := rfl

/-- Claim C5 (amended): for every did:web DID with a key-id fragment, a
DID-document fetch that completes with any non-200 status makes
`get_key` fail with the Format error \x22Did Document not retrieved\x22
(`BadFormat::Received`); a typed error of the HTTP client itself (the
transport-failure case, which the client reports as a Petition error)
is propagated unchanged instead. -/
theorem C5_non200_format_error : ∀ {κ : Type} (jd : String → Except Errors κ)
    (kf : Value → Except Errors κ) (did : String) (resp : FetchedDoc) (e : Errors),
    parse_did did = .Web → ((split_did_id did).2).isSome = true →
    (resp.status ≠ 200 →
      get_key jd kf did (.ok resp) =
        .error (Errors.format_new .received "Did Document not retrieved")) ∧
    get_key jd kf did (.error e) = .error e := by
  intro κ jd kf did resp e hweb hfrag
  rcases hsplit : split_did_id did with ⟨base, kid?⟩
  rw [hsplit] at hfrag
  unfold get_key
  rw [hweb, hsplit]
  cases kid? with
  | none => simp at hfrag
  | some kid =>
    constructor
    · intro hstatus
      simp [hstatus]
    · simp

/-- Claim C5 witness: a completed fetch with HTTP 500 for a did:web DID
with fragment `k0` yields the Format error. -/
theorem C5_non200_format_error_witness :
    get_key (fun _ => (.error (.ExternalError "unused") : Except Errors Unit))
      (fun _ => .error (.ExternalError "unused"))
      "did:web:w.example#k0" (.ok { status := 500, body := none }) =
      .error (Errors.format_new .received "Did Document not retrieved") :=
  (C5_non200_format_error _ _ "did:web:w.example#k0" { status := 500, body := none }
    (.ExternalError "unused") rfl rfl).1 (by decide)

/-- Claim C6: for the claim paths the code reads (`vc.validFrom` /
`vc.validUntil`), a present `validFrom` that parses strictly later than
now makes `validate_valid_from` fail with Security
\x22VC is not valid yet\x22; a present `validUntil` strictly earlier
than now makes `validate_valid_until` fail with Security
\x22VC has expired\x22; each claim is optional, and an absent or
in-range instant passes its check. -/
theorem C6_temporal_validity : ∀ (parseRfc3339 : String → Option Int) (now : Int)
    (claims : Value),
    (∀ s d, get_opt_claim claims ["vc", "validFrom"] = .ok (some s) → parseRfc3339 s = some d →
      d > now → validate_valid_from parseRfc3339 now claims =
        .error (Errors.security_new "VC is not valid yet")) ∧
    (∀ s d, get_opt_claim claims ["vc", "validUntil"] = .ok (some s) → parseRfc3339 s = some d →
      now > d → validate_valid_until parseRfc3339 now claims =
        .error (Errors.security_new "VC has expired")) ∧
    (get_opt_claim claims ["vc", "validFrom"] = .ok none →
      validate_valid_from parseRfc3339 now claims = .ok ()) ∧
    (get_opt_claim claims ["vc", "validUntil"] = .ok none →
      validate_valid_until parseRfc3339 now claims = .ok ()) ∧
    (∀ s d, get_opt_claim claims ["vc", "validFrom"] = .ok (some s) → parseRfc3339 s = some d →
      ¬(d > now) → validate_valid_from parseRfc3339 now claims = .ok ()) ∧
    (∀ s d, get_opt_claim claims ["vc", "validUntil"] = .ok (some s) → parseRfc3339 s = some d →
      ¬(now > d) → validate_valid_until parseRfc3339 now claims = .ok ()) := by
  intro parse now claims
  refine ⟨?_, ?_, ?_, ?_, ?_, ?_⟩
  · intro s d h1 h2 h3
    simp [validate_valid_from, h1, h2, h3, ok_bind, throw_eq, pure_eq]
  · intro s d h1 h2 h3
    simp [validate_valid_until, h1, h2, h3, ok_bind, throw_eq, pure_eq]
  · intro h1
    simp [validate_valid_from, h1, ok_bind, pure_eq]
  · intro h1
    simp [validate_valid_until, h1, ok_bind, pure_eq]
  · intro s d h1 h2 h3
    simp [validate_valid_from, h1, h2, h3, ok_bind, throw_eq, pure_eq]
  · intro s d h1 h2 h3
    simp [validate_valid_until, h1, h2, h3, ok_bind, throw_eq, pure_eq]

/-- Claim C6 witness: a `validFrom` parsing to instant 100 with now = 50
is rejected as not valid yet; a `validUntil` parsing to instant 0 with
now = 50 is rejected as expired. -/
theorem C6_temporal_validity_witness :
    validate_valid_from sampleParseRfc3339 50
      (.obj [("vc", .obj [("validFrom", .str "2099-01-01T00:00:00Z")])]) =
      .error (Errors.security_new "VC is not valid yet") ∧
    validate_valid_until sampleParseRfc3339 50
      (.obj [("vc", .obj [("validUntil", .str "2001-01-01T00:00:00Z")])]) =
      .error (Errors.security_new "VC has expired") :=
  ⟨(C6_temporal_validity sampleParseRfc3339 50
      (.obj [("vc", .obj [("validFrom", .str "2099-01-01T00:00:00Z")])])).1
      "2099-01-01T00:00:00Z" 100 rfl rfl (by omega),
    (C6_temporal_validity sampleParseRfc3339 50
      (.obj [("vc", .obj [("validUntil", .str "2001-01-01T00:00:00Z")])])).2.1
      "2001-01-01T00:00:00Z" 0 rfl rfl (by omega)⟩

/-- Claim C7: whatever the vp_token and whatever the token-validation
outcome, a completed `verify_vp` call leaves the session's `id`,
`state`, `nonce`, `audience`, `vc_type`, `success`, `status` and
timestamps unchanged; it sets `vpt` to the incoming token and at most
additionally sets `holder`. -/
theorem C7_verify_vp_frame : ∀ (model : recv_verification.Model) (t : String)
    (res : Except Errors (Value × String)) (m2 : recv_verification.Model)
    (r : Except Errors (List String × String)),
    verify_vp model t res = some (m2, r) →
    m2.id = model.id ∧ m2.state = model.state ∧ m2.nonce = model.nonce ∧
    m2.audience = model.audience ∧ m2.vc_type = model.vc_type ∧
    m2.success = model.success ∧ m2.status = model.status ∧
    m2.created_at = model.created_at ∧ m2.ended_at = model.ended_at ∧
    m2.vpt = some t ∧ (m2.holder = model.holder ∨ ∃ kid, m2.holder = some kid) := by
  intro model t res m2 r h
  simp only [verify_vp] at h
  repeat' (split at h)
  all_goals try exact Option.noConfusion h
  all_goals
    simp only [Option.some.injEq, Prod.mk.injEq] at h
    obtain ⟨hm, -⟩ := h
    subst hm
  all_goals first
    | exact ⟨rfl, rfl, rfl, rfl, rfl, rfl, rfl, rfl, rfl, rfl, Or.inl rfl⟩
    | (rename validate_vp_subject _ _ _ = _ => heq
       rw [vp_subject_ok heq]
       exact ⟨rfl, rfl, rfl, rfl, rfl, rfl, rfl, rfl, rfl, rfl, Or.inr ⟨_, rfl⟩⟩)

/-- Claim C7 witness: a failed token validation leaves the concrete
session untouched except for `vpt`. -/
theorem C7_verify_vp_frame_witness :
    sampleVerModelV.id = sampleVerModel.id ∧
    sampleVerModelV.state = sampleVerModel.state ∧
    sampleVerModelV.nonce = sampleVerModel.nonce ∧
    sampleVerModelV.audience = sampleVerModel.audience ∧
    sampleVerModelV.vc_type = sampleVerModel.vc_type ∧
    sampleVerModelV.success = sampleVerModel.success ∧
    sampleVerModelV.status = sampleVerModel.status ∧
    sampleVerModelV.created_at = sampleVerModel.created_at ∧
    sampleVerModelV.ended_at = sampleVerModel.ended_at ∧
    sampleVerModelV.vpt = some "vpt-jwt" ∧
    (sampleVerModelV.holder = sampleVerModel.holder ∨
      ∃ kid, sampleVerModelV.holder = some kid) :=
  C7_verify_vp_frame sampleVerModel "vpt-jwt"
    (.error (Errors.security_new "VPT signature is incorrect"))
    sampleVerModelV (.error (Errors.security_new "VPT signature is incorrect")) rfl

/-- Claim C8: `verify_vp` never reaches the panic modelled by the
top-level `none` (the `unwrap` of `session.holder` inside the holder
check): for every session, token and token-validation outcome the call
completes with a session and a typed result, because the subject check
unconditionally sets `holder` before the holder check runs. -/
theorem C8_verify_vp_no_panic : ∀ (model : recv_verification.Model) (t : String)
    (res : Except Errors (Value × String)),
    (verify_vp model t res).isSome = true := by
  intro model t res
  simp only [verify_vp]
  repeat' split
  all_goals try rfl
  all_goals
    rename validate_holder _ _ = none => hnone
    rename validate_vp_subject _ _ _ = _ => heq
    rw [vp_subject_ok heq] at hnone
    unfold validate_holder at hnone
    repeat' (split at hnone)
    all_goals simp_all

/-- Claim C9 (counterexample): the `Unknown` sentinel does not
round-trip: its display string is `Unknown`, which `from_str` rejects
with a Parse error. -/
theorem C9_unknown_roundtrip_fails_cex :
    VcType.from_str (VcType.fmt VcType.Unknown) ≠ .ok VcType.Unknown := by
  simp [VcType.fmt, VcType.from_str]

/-- Claim C9 (amended): every `VcType` value other than the `Unknown`
sentinel round-trips through its display string and `from_str`. -/
theorem C9_roundtrip_except_unknown : ∀ v : VcType, v ≠ VcType.Unknown →
    VcType.from_str (VcType.fmt v) = .ok v := by
  intro v h
  cases v with
  | LegalRegistrationNumber s => cases s <;> rfl
  | DataspaceParticipant => rfl
  | LegalPerson => rfl
  | TermsAndConditions => rfl
  | Unknown => exact absurd rfl h

/-- Claim C9 witness: `LegalPerson` round-trips. -/
theorem C9_roundtrip_except_unknown_witness :
    VcType.LegalPerson ≠ VcType.Unknown ∧
    VcType.from_str (VcType.fmt VcType.LegalPerson) = .ok VcType.LegalPerson :=
  ⟨by decide, C9_roundtrip_except_unknown VcType.LegalPerson (by decide)⟩

/-- Claim C10: when an optional claim path resolves to a value that is
not a JSON string, `get_opt_claim` returns the Format error naming the
field rather than `Ok(None)`; and such an error makes the enclosing
verification step (here `validate_vc_id` reading the optional `jti`)
fail with that same error. -/
theorem C10_opt_claim_non_string_error :
    (∀ (claims : Value) (path : List String) (v : Value),
      lookupPath claims path = some v → v.asStr = none →
      get_opt_claim claims path =
        .error (Errors.format_new .received
          ("Field \x27" ++ ((path.getLast?).getD "unknown") ++ "\x27 not a string"))) ∧
    (∀ (claims : Value) (vc_id : String) (e : Errors),
      get_claim claims ["vc", "id"] = .ok vc_id →
      get_opt_claim claims ["jti"] = .error e →
      validate_vc_id claims = .error e) := by
  constructor
  · intro claims path v h1 h2
    simp [get_opt_claim, h1, validate_data, h2]
  · intro claims vc_id e h1 h2
    simp [validate_vc_id, h1, h2, ok_bind, error_bind]

/-- Claim C10 witness: a numeric `jti` is reported as
`Field \x27jti\x27 not a string`. -/
theorem C10_opt_claim_non_string_error_witness :
    get_opt_claim (.obj [("jti", .num 1)]) ["jti"] =
      .error (Errors.format_new .received "Field \x27jti\x27 not a string") :=
  C10_opt_claim_non_string_error.1 (.obj [("jti", .num 1)]) ["jti"] (.num 1) rfl rfl

end Ymir
